import Mathlib

/-!
Shallow embedding of the Excel report bot (`src/excel.py`).

The program drives an external Excel COM service: it refreshes workbook
data, optionally validates a date indicator, captures configured regions
as screenshots and delivers them over a WeChat webhook.  All interaction
with the outside world (COM calls, HTTP posts, the filesystem, sleeps)
is modelled by oracle functions describing how the environment behaves,
and each embedded operation returns its result together with the list of
observable events it performed, in order.  Exceptions raised by the
environment are modelled with `Except` at the raising call and explicit
propagation or catching exactly where the Python code has `try`/`except`.
-/

set_option linter.unusedVariables false

namespace ExcelBot

/-- One observable step performed by the program during a firing. -/
inductive Event where
  /-- `ExcelProcessor.__enter__`: Dispatch + `Workbooks.Open`; `visible` is the
      value assigned to `Excel.Application.Visible`, `ok` whether startup succeeded. -/
  | openSession (visible : Bool) (ok : Bool)
  /-- One invocation of `ExcelProcessor.refresh_data` begins
      (`workbook.RefreshAll()` is issued). -/
  | refreshCall
  /-- The `k`-th successful read of `self.excel.CalculationState` in one refresh. -/
  | calcPoll (k : Nat)
  /-- The `k`-th read of `CalculationState` raised. -/
  | calcFault (k : Nat)
  /-- `time.sleep(secs)`. -/
  | sleep (secs : Nat)
  /-- `validate_date` reads the indicator cell on the given 1-based attempt. -/
  | readIndicator (attempt : Nat)
  /-- `capture_screenshots` processes the capture config at index `idx`. -/
  | captureTry (idx : Nat)
  /-- One `requests.post` in `_send_wechat` (1-based `attempt`); `ok` is whether
      the post succeeded. -/
  | sendAttempt (webhook : String) (msgtype : String) (content : String)
      (attempt : Nat) (ok : Bool)
  /-- `_prepare_image` starts reading the artifact file at `path`. -/
  | prepareFile (path : String)
  /-- `_upload_file` posts to the upload endpoint. -/
  | uploadCall
  /-- `os.remove` is attempted on `path` in `_cleanup`. -/
  | removeFile (path : String)
  /-- `workbook.Close(SaveChanges=...)` is issued in `_safe_shutdown`. -/
  | closeWorkbook (saveChanges : Bool)
  /-- `excel.Quit()` is issued in `_safe_shutdown`. -/
  | quitExcel
  /-- `_safe_shutdown` runs (the session release routine is entered). -/
  | safeShutdown
  /-- `logger.error(f"任务异常...")` in `execute`'s `except` clause. -/
  | logError
  /-- `logger.info(f"任务耗时...")` in `execute`'s `finally` clause. -/
  | logElapsed
deriving DecidableEq, Repr

/-- Loop body of `ReportTask._send_wechat` (src/excel.py:397-415): attempts are
1-based; a successful post returns at once; a failed post logs, then sleeps
`2 ** attempt` seconds — including after the final failed attempt — and retries
while attempts remain.  `ok a` tells whether the `a`-th post succeeds.  The
function never raises: every exception of an attempt is caught in its body. -/
def sendAux (webhook msgtype content : String) (ok : Nat → Bool) :
    Nat → Nat → List Event
  | _, 0 => []
  | attempt, fuel+1 =>
    if ok attempt then
      [.sendAttempt webhook msgtype content attempt true]
    else
      .sendAttempt webhook msgtype content attempt false ::
        .sleep (2 ^ attempt) :: sendAux webhook msgtype content ok (attempt+1) fuel

/-- `ReportTask._send_wechat(type, data, description, webhook)` with
`self.retry_limit` send attempts (the class fixes `retry_limit = 3`).
`content` stands for the payload (the text message, or the artifact path for
an image send). -/
def send_wechat (webhook msgtype content : String) (ok : Nat → Bool)
    (retryLimit : Nat) : List Event :=
  sendAux webhook msgtype content ok 1 retryLimit

/-- Behaviour of the Excel COM service during one `refresh_data` call.
`calcState k` is the result of the `k`-th read of `CalculationState`
(`.error ()` models a raised COM fault, `.ok s` the returned state;
`s = 0` means the calculation is finished). -/
structure RefreshWorld where
  /-- Does `workbook.RefreshAll()` return normally? -/
  refreshAllOk : Bool
  /-- Does `excel.CalculateUntilAsyncQueriesDone()` return normally? -/
  calcUntilOk : Bool
  /-- Outcome of the `k`-th `CalculationState` poll (0-based). -/
  calcState : Nat → Except Unit Int

/-- The polling loop of `ExcelProcessor.refresh_data` (src/excel.py:100-123):
`while time.time() - start_time < timeout: if CalculationState == 0: return
True; time.sleep(5)`.  Only the 5-second sleeps advance the clock, so
`elapsed` is the wall time at the loop test; `k` counts the polls performed.
Returns (result, elapsed time at return, events).  A raised poll is caught by
the enclosing `except` of `refresh_data` and yields `false`. -/
def refreshLoop (calcState : Nat → Except Unit Int) (timeout k elapsed : Nat) :
    Bool × Nat × List Event :=
  if htime : elapsed < timeout then
    match calcState k with
    | .error _ => (false, elapsed, [.calcFault k])
    | .ok s =>
      if s = 0 then
        (true, elapsed, [.calcPoll k])
      else
        let r := refreshLoop calcState timeout (k+1) (elapsed+5)
        (r.1, r.2.1, .calcPoll k :: .sleep 5 :: r.2.2)
  else
    (false, elapsed, [])
termination_by timeout - elapsed
decreasing_by omega

/-- `ExcelProcessor.refresh_data` (src/excel.py:90-126) with
`self._refresh_timeout = 120`.  A fault in `RefreshAll` or
`CalculateUntilAsyncQueriesDone` is caught by the `except` clause and yields
`false`.  The filter re-application after a successful poll wraps every sheet
in its own `try`/`except` and does not change the result, time, or the events
modelled here. -/
def refresh_data (w : RefreshWorld) : Bool × Nat × List Event :=
  if w.refreshAllOk then
    if w.calcUntilOk then
      let r := refreshLoop w.calcState 120 0 0
      (r.1, r.2.1, .refreshCall :: r.2.2)
    else
      (false, 0, [.refreshCall])
  else
    (false, 0, [.refreshCall])

/-- Behaviour of the environment during one `validate_date` call.
`indicator t` is the outcome of the `t`-th (1-based) read of the check range
on the 日期校验 sheet; `refreshW t` drives the `refresh_data` call made after
a failed `t`-th read. -/
structure ValidateWorld where
  /-- Outcome of the check-range read on attempt `t` (`.error ()` models a
      raised COM fault, caught by the loop's `except`). -/
  indicator : Nat → Except Unit Int
  /-- Behaviour of the inner `refresh_data` call issued after attempt `t`. -/
  refreshW : Nat → RefreshWorld

/-- Loop body of `ExcelProcessor.validate_date` (src/excel.py:128-144):
`for attempt in range(1, check_frequency+1)`.  A read equal to the literal 1
returns `True` at once; otherwise, if attempts remain, sleep 10s and re-run
`refresh_data` (its boolean result is discarded); a raised read is caught and
the loop moves to the next attempt without sleeping or refreshing.  After the
loop, return `False`. -/
def validateAux (w : ValidateWorld) (N : Nat) : Nat → Nat → Bool × List Event
  | _, 0 => (false, [])
  | attempt, fuel+1 =>
    match w.indicator attempt with
    | .error _ =>
      let r := validateAux w N (attempt+1) fuel
      (r.1, .readIndicator attempt :: r.2)
    | .ok v =>
      if v = 1 then
        (true, [.readIndicator attempt])
      else if attempt < N then
        let rf := refresh_data (w.refreshW attempt)
        let r := validateAux w N (attempt+1) fuel
        (r.1, .readIndicator attempt :: .sleep 10 :: (rf.2.2 ++ r.2))
      else
        let r := validateAux w N (attempt+1) fuel
        (r.1, .readIndicator attempt :: r.2)

/-- `ExcelProcessor.validate_date(check_range, check_frequency)`. -/
def validate_date (w : ValidateWorld) (checkFrequency : Nat) : Bool × List Event :=
  validateAux w checkFrequency 1 checkFrequency

/-- One entry of `capture_configs`: sheet name, range address and the name used
to build the output path. -/
structure CaptureCfg where
  sheetName : String
  rangeAddr : String
  name : String
deriving DecidableEq, Repr

/-- Loop of `ExcelProcessor.capture_screenshots` (src/excel.py:146-171): each
config is processed inside its own `try`/`except`, so a failed or raising
capture is logged and skipped and the loop continues; a path is appended only
when `_capture_range` returns `True`.  `capture i` is the outcome of config
`i` (`.error ()` models a raise anywhere in the body, `.ok b` the boolean of
`_capture_range`); `genPath i` models the timestamped path
`_generate_path(cfg["name"])` produces for config `i`.  The zoom-restore epilogue
is wrapped in `try`/`except` and does not affect the returned list. -/
def captureAux (capture : Nat → Except Unit Bool) (genPath : Nat → String) :
    List CaptureCfg → Nat → List String × List Event
  | [], _ => ([], [])
  | _cfg :: rest, i =>
    let r := captureAux capture genPath rest (i+1)
    match capture i with
    | .ok true => (genPath i :: r.1, .captureTry i :: r.2)
    | _ => (r.1, .captureTry i :: r.2)

/-- `ExcelProcessor.capture_screenshots(configs)`. -/
def capture_screenshots (capture : Nat → Except Unit Bool) (genPath : Nat → String)
    (configs : List CaptureCfg) : List String × List Event :=
  captureAux capture genPath configs 0

/-- The `data_check` section of a task's config dict. -/
structure DataCheck where
  checkRange : String
  checkFrequency : Nat
  notifyMessage : String
  notifyUsers : List String
  warningWebhook : String
deriving DecidableEq, Repr

/-- One task's config dict after `ReportTask._validate_config`
(src/excel.py:232-247): `excel_path`, `schedule.times` and `schedule.webhook`
are required; `data_check`, `data_check_enable`, `send_file_enable` and
`file_path` are optional (`dataCheck = none` models a dict without a
`data_check` key, so that `config["data_check"]` raises `KeyError`;
`filePath = none` models a missing or empty `file_path`). -/
structure Config where
  excelPath : String
  webhook : String
  captureConfigs : List CaptureCfg
  dataCheckEnable : Bool
  dataCheck : Option DataCheck
  sendFileEnable : Bool
  filePath : Option String

/-- State set up by `ExcelProcessor.__init__(file_path, visible=False)`
(src/excel.py:39-50).  Line 47 executes `self.visible = True`: the `visible`
argument is ignored and the stored flag is always `true`. -/
structure ExcelProcessorState where
  filePath : String
  visible : Bool
deriving DecidableEq, Repr

/-- `ExcelProcessor.__init__` as a function from its arguments to the stored
state (src/excel.py:46-47). -/
def ExcelProcessor.init (filePath : String) (visible : Bool) : ExcelProcessorState :=
  { filePath := filePath, visible := true }

/-- `ExcelProcessor._safe_shutdown` (src/excel.py:79-88): inside one
`try`/`except`, close the workbook with `SaveChanges=True` when one is open,
then quit Excel when an instance exists.  A raised `Close` (`closeOk = false`)
is caught, which also skips the `Quit` call; the routine itself never raises. -/
def safe_shutdown (workbookOpen excelOpen closeOk : Bool) : List Event :=
  .safeShutdown ::
    (if workbookOpen then
      if closeOk then
        .closeWorkbook true :: (if excelOpen then [.quitExcel] else [])
      else
        [.closeWorkbook true]
    else if excelOpen then [.quitExcel] else [])

/-- How far `ExcelProcessor.__enter__` (src/excel.py:52-74) gets:
`win32.Dispatch` may raise (no Excel instance exists), `Workbooks.Open` may
raise (an instance exists but no workbook), or both succeed. -/
inductive OpenOutcome where
  | dispatchFail
  | openFail
  | ok
deriving DecidableEq, Repr

/-- `ExcelProcessor.__enter__`: on failure it calls `_safe_shutdown` itself and
re-raises a `RuntimeError` (modelled as `.error` carrying the events so far);
on success the zoom-setup loop runs with a per-sheet `try`/`except` and has no
modelled effect.  The `openSession` event records the value assigned to
`Excel.Application.Visible`, i.e. the stored `visible` flag. -/
def enterSession (st : ExcelProcessorState) (o : OpenOutcome) (closeOk : Bool) :
    Except (List Event) (List Event) :=
  match o with
  | .dispatchFail =>
    .error (.openSession st.visible false :: safe_shutdown false false closeOk)
  | .openFail =>
    .error (.openSession st.visible false :: safe_shutdown false true closeOk)
  | .ok => .ok [.openSession st.visible true]

/-- Behaviour of the filesystem and the network during one `_deliver_results`
call. -/
structure DeliverWorld where
  /-- Does `_prepare_image` on the `i`-th screenshot return normally?  (Its
      body — `open`, `read`, and the re-encoding — has no exception handler,
      src/excel.py:359-395.) -/
  prepare : Nat → Bool
  /-- Attempt oracle of the image send for the `i`-th screenshot. -/
  imageSend : Nat → Nat → Bool
  /-- `os.path.exists(config["file_path"])` in `_send_attachment`. -/
  fileExists : Bool
  /-- Does `open(file_path, "rb")` succeed in `_send_attachment`?  A raise is
      caught by its `except`. -/
  openOk : Bool
  /-- The `media_id` obtained by `_upload_file`; `none` models a raised or
      id-less upload (caught inside `_upload_file`, which then returns `None`). -/
  uploadResult : Option String
  /-- Attempt oracle of the attachment's file send. -/
  fileSend : Nat → Bool

/-- `ReportTask._cleanup(files)` (src/excel.py:417-424): each `os.remove` is
attempted inside its own `try`/`except`, so every file is attempted and the
routine never raises. -/
def cleanup (files : List String) : List Event :=
  files.map Event.removeFile

/-- `ReportTask._send_attachment` (src/excel.py:319-336): skip silently on a
missing/empty path or a non-existent file; a raised `open` is caught; a failed
upload (`None` media id) skips the send; otherwise send the media id through
the primary webhook with the usual retry.  Never raises. -/
def send_attachment (cfg : Config) (w : DeliverWorld) : List Event :=
  match cfg.filePath with
  | none => []
  | some _ =>
    if w.fileExists then
      if w.openOk then
        match w.uploadResult with
        | some mid => .uploadCall :: send_wechat cfg.webhook "file" mid w.fileSend 3
        | none => [.uploadCall]
      else []
    else []

/-- The per-screenshot loop of `ReportTask._deliver_results`
(src/excel.py:304-311): `_prepare_image(img_path)` is evaluated to build the
send's argument and has no handler, so a raise there propagates out of
`_deliver_results` (first component `true`); a prepared payload is sent with
`_send_wechat`, which never raises, and the loop continues. -/
def deliverLoop (webhook : String) (w : DeliverWorld) :
    List String → Nat → Bool × List Event
  | [], _ => (false, [])
  | p :: rest, i =>
    if w.prepare i then
      let r := deliverLoop webhook w rest (i+1)
      (r.1, .prepareFile p :: (send_wechat webhook "image" p (w.imageSend i) 3 ++ r.2))
    else
      (true, [.prepareFile p])

/-- `ReportTask._deliver_results(screenshots)` (src/excel.py:301-317): send
every screenshot, then the optional attachment, then delete the screenshot
files.  The first component is `true` when the call raised (which skips the
attachment and the cleanup). -/
def deliver_results (cfg : Config) (w : DeliverWorld) (screenshots : List String) :
    Bool × List Event :=
  let l := deliverLoop cfg.webhook w screenshots 0
  if l.1 then
    l
  else
    (false, l.2 ++ ((if cfg.sendFileEnable then send_attachment cfg w else [])
      ++ cleanup screenshots))

/-- Full behaviour of the environment during one `ReportTask.execute` firing. -/
structure World where
  /-- How far `__enter__` gets. -/
  openOut : OpenOutcome
  /-- Does `workbook.Close` in `_safe_shutdown` return normally? -/
  closeOk : Bool
  /-- Behaviour of the top-level `refresh_data` call. -/
  refreshW : RefreshWorld
  /-- Behaviour of `validate_date` (indicator reads and inner refreshes). -/
  valW : ValidateWorld
  /-- Outcome of each capture config. -/
  capture : Nat → Except Unit Bool
  /-- Generated output path per capture config. -/
  genPath : Nat → String
  /-- Attempt oracle of the refresh-failure warning send. -/
  warnSend : Nat → Bool
  /-- Attempt oracle of the validation-failure warning send. -/
  valWarnSend : Nat → Bool
  /-- Filesystem/network behaviour of `_deliver_results`. -/
  deliver : DeliverWorld

/-- How the `with` block of `ReportTask.execute` ends. -/
inductive BodyExit where
  | normal (screenshots : List String)
  | earlyReturn
  | raised
deriving DecidableEq, Repr

/-- The body of the `with` block in `ReportTask.execute` (src/excel.py:259-293):
refresh; on failure send the fixed warning text to
`config["data_check"]["warning_webhook"]` and return (a missing `data_check`
key raises `KeyError` instead); optionally validate, with the configured
message sent to the same webhook on failure; then capture.  `.raised` marks an
exception escaping the block. -/
def executeBody (cfg : Config) (w : World) : BodyExit × List Event :=
  let rf := refresh_data w.refreshW
  if rf.1 then
    if cfg.dataCheckEnable then
      match cfg.dataCheck with
      | none => (.raised, rf.2.2)
      | some dc =>
        let v := validate_date w.valW dc.checkFrequency
        if v.1 then
          let cap := capture_screenshots w.capture w.genPath cfg.captureConfigs
          (.normal cap.1, rf.2.2 ++ (v.2 ++ cap.2))
        else
          (.earlyReturn, rf.2.2 ++ (v.2 ++
            send_wechat dc.warningWebhook "text" dc.notifyMessage w.valWarnSend 3))
    else
      let cap := capture_screenshots w.capture w.genPath cfg.captureConfigs
      (.normal cap.1, rf.2.2 ++ cap.2)
  else
    match cfg.dataCheck with
    | none => (.raised, rf.2.2)
    | some dc =>
      (.earlyReturn, rf.2.2 ++
        send_wechat dc.warningWebhook "text" "数据刷新失败，请检查网络！" w.warnSend 3)

/-- `ReportTask.execute(debug_mode=False)` (src/excel.py:249-299).  The `with`
statement guarantees `__exit__` (hence `_safe_shutdown`) on every exit of the
block — normal fall-through, `return`, or exception — and `_deliver_results`
runs after the block.  The surrounding `try`/`except Exception`/`finally`
catches every fault (logging `logError`) and always logs the elapsed time. -/
def execute (cfg : Config) (w : World) (debugMode : Bool) : List Event :=
  let st := ExcelProcessor.init cfg.excelPath debugMode
  let core : Bool × List Event :=
    match enterSession st w.openOut w.closeOk with
    | .error tr => (true, tr)
    | .ok tr =>
      let body := executeBody cfg w
      let shut := safe_shutdown true true w.closeOk
      match body.1 with
      | .normal shots =>
        let d := deliver_results cfg w.deliver shots
        (d.1, tr ++ (body.2 ++ (shut ++ d.2)))
      | .earlyReturn => (false, tr ++ (body.2 ++ shut))
      | .raised => (true, tr ++ (body.2 ++ shut))
  if core.1 then core.2 ++ [.logError, .logElapsed]
  else core.2 ++ [.logElapsed]

/-- Is the event an HTTP post of the Delivery Pipeline (an image or
attachment-file send)?  Warning notifications are `text` sends. -/
def Event.isDeliverSend : Event → Bool
  | .sendAttempt _ t _ _ _ => t == "image" || t == "file"
  | _ => false

/-- Is the event an HTTP post of `_send_wechat` (any message type)? -/
def Event.isSendAttempt : Event → Bool
  | .sendAttempt _ _ _ _ _ => true
  | _ => false

/-- Is the event a read of the validation indicator? -/
def Event.isReadIndicator : Event → Bool
  | .readIndicator _ => true
  | _ => false

/-- Is the event the start of a `refresh_data` invocation? -/
def Event.isRefreshCall : Event → Bool
  | .refreshCall => true
  | _ => false

/-- Is the event the processing of a capture config? -/
def Event.isCaptureTry : Event → Bool
  | .captureTry _ => true
  | _ => false

/-- Is the event an `os.remove` attempt? -/
def Event.isRemoveFile : Event → Bool
  | .removeFile _ => true
  | _ => false

/-- Events that can occur inside the `with` block of `execute` (the stage
sequence plus `text` warning sends) — in particular no delivery send, no file
removal and no workbook close happens there. -/
def stageEvent : Event → Bool
  | .refreshCall => true
  | .calcPoll _ => true
  | .calcFault _ => true
  | .sleep _ => true
  | .readIndicator _ => true
  | .captureTry _ => true
  | .sendAttempt _ t _ _ _ => t == "text"
  | _ => false

/-- Boolean form of a successful `_capture_range` outcome. -/
def captureOk : Except Unit Bool → Bool
  | .ok true => true
  | _ => false

/-- Events that can occur inside `_deliver_results` (payload reads, posts,
backoff sleeps, the upload, the cleanup removals). -/
def deliverEvent : Event → Bool
  | .prepareFile _ => true
  | .sendAttempt _ _ _ _ _ => true
  | .sleep _ => true
  | .uploadCall => true
  | .removeFile _ => true
  | _ => false

/-- Session bookkeeping and task-boundary logging events of `execute` outside
the stage sequence and the delivery pipeline. -/
def frameEvent : Event → Bool
  | .openSession _ _ => true
  | .safeShutdown => true
  | .closeWorkbook true => true
  | .quitExcel => true
  | .logError => true
  | .logElapsed => true
  | _ => false

/-- A refresh whose first `CalculationState` poll already reports idle. -/
def refreshIdleW : RefreshWorld :=
  ⟨true, true, fun _ => .ok 0⟩

/-- A refresh whose first `CalculationState` poll raises a COM fault. -/
def refreshFaultW : RefreshWorld :=
  ⟨true, true, fun _ => .error ()⟩

/-- A refresh whose `CalculationState` polls always report busy (state 1). -/
def refreshBusyW : RefreshWorld :=
  ⟨true, true, fun _ => .ok 1⟩

/-- A validation world whose indicator always reads 0 (never the sentinel 1). -/
def valBusyW : ValidateWorld :=
  ⟨fun _ => .ok 0, fun _ => refreshIdleW⟩

/-- A validation world whose indicator reads the sentinel 1 at once. -/
def valOkW : ValidateWorld :=
  ⟨fun _ => .ok 1, fun _ => refreshIdleW⟩

/-- A small concrete task config used to evaluate the model. -/
def dcEx : DataCheck :=
  ⟨"D4", 3, "数据日期校验未通过", ["zhufuzhe"], "https://warn.example/hook"⟩

/-- A config with data check configured and enabled and no attachment. -/
def cfgEx : Config :=
  ⟨"C:\\reports\\daily.xlsx", "https://wh.example/hook",
   [⟨"sheet1", "A1:C10", "summary"⟩, ⟨"sheet2", "B2:D8", "detail"⟩,
    ⟨"sheet3", "A1", "trend"⟩],
   true, some dcEx, false, none⟩

/-- A delivery world where every payload prepares and every post succeeds. -/
def dwOkEx : DeliverWorld :=
  ⟨fun _ => true, fun _ _ => true, false, true, none, fun _ => true⟩

/-- A delivery world where reading the first artifact's file raises. -/
def dwBadEx : DeliverWorld :=
  ⟨fun _ => false, fun _ _ => true, false, true, none, fun _ => true⟩

/-- A fully successful environment for one firing of `cfgEx`. -/
def worldEx : World :=
  ⟨.ok, true, refreshIdleW, valOkW, fun _ => .ok true,
   fun i => "shot" ++ toString i ++ ".png", fun _ => true, fun _ => true, dwOkEx⟩

/-! ## Lemmas about `_send_wechat` -/

lemma sendAux_mem {wh t c : String} {ok : Nat → Bool} :
    ∀ {fuel attempt : Nat} {e : Event}, e ∈ sendAux wh t c ok attempt fuel →
      (∃ a b, e = .sendAttempt wh t c a b) ∨ ∃ s, e = .sleep s := by
  intro fuel
  induction fuel with
  | zero => intro attempt e he; simp [sendAux] at he
  | succ n ih =>
    intro attempt e he
    by_cases hok : ok attempt
    · simp [sendAux, hok] at he
      exact .inl ⟨attempt, true, he⟩
    · simp [sendAux, hok] at he
      rcases he with he | he | he
      · exact .inl ⟨attempt, false, he⟩
      · exact .inr ⟨2 ^ attempt, he⟩
      · exact ih he

lemma sendAux_countP_le {wh t c : String} {ok : Nat → Bool} :
    ∀ (fuel attempt : Nat),
      (sendAux wh t c ok attempt fuel).countP Event.isSendAttempt ≤ fuel := by
  intro fuel
  induction fuel with
  | zero => intro attempt; simp [sendAux]
  | succ n ih =>
    intro attempt
    by_cases hok : ok attempt
    · simp [sendAux, hok, List.countP_cons, Event.isSendAttempt]
    · simp only [sendAux, hok, if_neg, Bool.false_eq_true, List.countP_cons,
        Event.isSendAttempt]
      have := ih (attempt + 1)
      simp [Event.isSendAttempt] at this ⊢
      omega

lemma send_wechat_first {wh t c : String} {ok : Nat → Bool} {n : Nat} :
    Event.sendAttempt wh t c 1 (ok 1) ∈ send_wechat wh t c ok (n+1) := by
  by_cases hok : ok 1 <;> simp [send_wechat, sendAux, hok]

/-- Claim C4.  `_send_wechat` makes at most `retry_limit = 3` post attempts;
with failures on attempts 1 and 2 and success on attempt 3 the exact event
sequence is post, 2s sleep, post, 4s sleep, post — no sleep after the final
success; with failures on all attempts the item is abandoned after the third
post (no successful post event); and `_deliver_results` still processes the
next artifact whatever the previous artifact's send oracle did. -/
theorem C4_send_retry (wh c : String) (ok : Nat → Bool) (cfg : Config)
    (dw : DeliverWorld) (p q : String) :
    ((send_wechat wh "image" c ok 3).countP Event.isSendAttempt ≤ 3)
    ∧ (ok 1 = false → ok 2 = false → ok 3 = true →
        send_wechat wh "image" c ok 3 =
          [.sendAttempt wh "image" c 1 false, .sleep 2,
           .sendAttempt wh "image" c 2 false, .sleep 4,
           .sendAttempt wh "image" c 3 true])
    ∧ ((∀ a, ok a = false) →
        send_wechat wh "image" c ok 3 =
          [.sendAttempt wh "image" c 1 false, .sleep 2,
           .sendAttempt wh "image" c 2 false, .sleep 4,
           .sendAttempt wh "image" c 3 false, .sleep 8])
    ∧ (dw.prepare 0 = true → dw.prepare 1 = true →
        Event.sendAttempt cfg.webhook "image" q 1 (dw.imageSend 1 1)
          ∈ (deliver_results cfg dw [p, q]).2) := by
  refine ⟨sendAux_countP_le 3 1, ?_, ?_, ?_⟩
  · intro h1 h2 h3
    simp [send_wechat, sendAux, h1, h2, h3]
  · intro hall
    simp [send_wechat, sendAux, hall 1, hall 2, hall 3]
  · intro hp0 hp1
    have hhead : Event.sendAttempt cfg.webhook "image" q 1 (dw.imageSend 1 1)
        ∈ send_wechat cfg.webhook "image" q (dw.imageSend 1) 3 :=
      send_wechat_first
    simp [deliver_results, deliverLoop, hp0, hp1] at hhead ⊢
    tauto

/-- Witness for C4 at concrete inputs. -/
theorem C4_send_retry_witness :
    ((fun a => a == 3) 1 = false ∧ (fun a => a == 3) 2 = false
      ∧ (fun a => a == 3) 3 = true)
    ∧ send_wechat "https://wh.example/hook" "image" "shot0.png" (fun a => a == 3) 3 =
        [.sendAttempt "https://wh.example/hook" "image" "shot0.png" 1 false, .sleep 2,
         .sendAttempt "https://wh.example/hook" "image" "shot0.png" 2 false, .sleep 4,
         .sendAttempt "https://wh.example/hook" "image" "shot0.png" 3 true]
    ∧ (dwOkEx.prepare 0 = true ∧ dwOkEx.prepare 1 = true)
    ∧ Event.sendAttempt cfgEx.webhook "image" "q.png" 1 (dwOkEx.imageSend 1 1)
        ∈ (deliver_results cfgEx dwOkEx ["p.png", "q.png"]).2 :=
  ⟨⟨by decide, by decide, by decide⟩,
   (C4_send_retry "https://wh.example/hook" "shot0.png" (fun a => a == 3)
      cfgEx dwOkEx "p.png" "q.png").2.1 (by decide) (by decide) (by decide),
   ⟨by decide, by decide⟩,
   (C4_send_retry "https://wh.example/hook" "shot0.png" (fun a => a == 3)
      cfgEx dwOkEx "p.png" "q.png").2.2.2 (by decide) (by decide)⟩

/-! ## Lemmas about `refresh_data` -/

lemma refreshLoop_mem {cs : Nat → Except Unit Int} {T : Nat} :
    ∀ (fuel k el : Nat), T - el ≤ fuel → ∀ e ∈ (refreshLoop cs T k el).2.2,
      (∃ j, e = .calcPoll j) ∨ (∃ j, e = .calcFault j) ∨ e = .sleep 5 := by
  intro fuel
  induction fuel with
  | zero =>
    intro k el hle e he
    rw [refreshLoop, dif_neg (by omega)] at he
    simp at he
  | succ n ih =>
    intro k el hle e he
    by_cases hel : el < T
    · rw [refreshLoop, dif_pos hel] at he
      rcases hc : cs k with u | s
      · rw [hc] at he
        simp at he
        exact .inr (.inl ⟨k, he⟩)
      · rw [hc] at he
        by_cases hs : s = 0
        · simp [hs] at he
          exact .inl ⟨k, he⟩
        · simp [hs] at he
          rcases he with he | he | he
          · exact .inl ⟨k, he⟩
          · exact .inr (.inr he)
          · exact ih (k+1) (el+5) (by omega) e he
    · rw [refreshLoop, dif_neg hel] at he
      simp at he

lemma refresh_data_mem {w : RefreshWorld} :
    ∀ e ∈ (refresh_data w).2.2,
      e = .refreshCall ∨ (∃ j, e = .calcPoll j) ∨ (∃ j, e = .calcFault j)
        ∨ e = .sleep 5 := by
  intro e he
  by_cases h1 : w.refreshAllOk
  · by_cases h2 : w.calcUntilOk
    · simp only [refresh_data, h1, h2, if_true, List.mem_cons] at he
      rcases he with he | he
      · exact .inl he
      · exact .inr (refreshLoop_mem (120 - 0) 0 0 (le_refl _) e he)
    · simp [refresh_data, h1, h2] at he
      exact .inl he
  · simp [refresh_data, h1] at he
    exact .inl he

lemma refresh_data_countP_read {w : RefreshWorld} :
    (refresh_data w).2.2.countP Event.isReadIndicator = 0 := by
  rw [List.countP_eq_zero]
  intro e he
  rcases refresh_data_mem e he with h | ⟨j, h⟩ | ⟨j, h⟩ | h <;>
    simp [h, Event.isReadIndicator]

lemma refresh_data_countP_refresh {w : RefreshWorld} :
    (refresh_data w).2.2.countP Event.isRefreshCall = 1 := by
  have hloop : ∀ k el, (refreshLoop w.calcState 120 k el).2.2.countP
      Event.isRefreshCall = 0 := by
    intro k el
    rw [List.countP_eq_zero]
    intro e he
    rcases refreshLoop_mem (120 - el) k el (le_refl _) e he with ⟨j, h⟩ | ⟨j, h⟩ | h <;>
      simp [h, Event.isRefreshCall]
  by_cases h1 : w.refreshAllOk
  · by_cases h2 : w.calcUntilOk
    · simp [refresh_data, h1, h2, List.countP_cons, Event.isRefreshCall, hloop]
    · simp [refresh_data, h1, h2, Event.isRefreshCall]
  · simp [refresh_data, h1, Event.isRefreshCall]

/-! ## Lemmas about `validate_date` -/

lemma validateAux_fail {w : ValidateWorld} {N : Nat}
    (hind : ∀ t, ∃ v, w.indicator t = .ok v ∧ v ≠ 1) :
    ∀ (fuel attempt : Nat), attempt + fuel = N + 1 →
      (validateAux w N attempt fuel).1 = false ∧
      (validateAux w N attempt fuel).2.countP Event.isReadIndicator = fuel ∧
      (validateAux w N attempt fuel).2.countP Event.isRefreshCall = fuel - 1 := by
  intro fuel
  induction fuel with
  | zero => intro attempt h1; simp [validateAux]
  | succ n ih =>
    intro attempt h1
    obtain ⟨v, hv, hv1⟩ := hind attempt
    by_cases hlt : attempt < N
    · have hn : 1 ≤ n := by omega
      obtain ⟨hr1, hr2, hr3⟩ := ih (attempt + 1) (by omega)
      simp only [validateAux, hv]
      rw [if_neg hv1, if_pos hlt]
      refine ⟨hr1, ?_, ?_⟩
      · simp [List.countP_cons, List.countP_append, Event.isReadIndicator,
          refresh_data_countP_read, hr2]
      · simp [List.countP_cons, List.countP_append, Event.isRefreshCall,
          refresh_data_countP_refresh, hr3]
        omega
    · have hn : n = 0 := by omega
      subst hn
      simp [validateAux, hv, hv1, hlt, List.countP_cons,
        Event.isReadIndicator, Event.isRefreshCall]

/-- Claim C3.  With `check_frequency = N ≥ 1`: an indicator that never reads
the sentinel 1 gives exactly `N` indicator reads and `N − 1` intervening
`refresh_data` calls and then `False`; an indicator reading 1 on the first
attempt gives `True` after exactly one read and nothing else. -/
theorem C3_validate_attempts (w : ValidateWorld) (N : Nat) (hN : 1 ≤ N) :
    ((∀ t, ∃ v, w.indicator t = .ok v ∧ v ≠ 1) →
      (validate_date w N).1 = false ∧
      (validate_date w N).2.countP Event.isReadIndicator = N ∧
      (validate_date w N).2.countP Event.isRefreshCall = N - 1)
    ∧ (w.indicator 1 = .ok 1 →
        validate_date w N = (true, [.readIndicator 1])) := by
  constructor
  · intro hind
    have := @validateAux_fail w N hind N 1 (by omega)
    simpa [validate_date] using this
  · intro h1
    obtain ⟨m, rfl⟩ : ∃ m, N = m + 1 := ⟨N - 1, by omega⟩
    simp [validate_date, validateAux, h1]

/-- Witness for C3 at concrete inputs: an always-0 indicator with
`check_frequency = 2`, and an immediately-valid indicator with
`check_frequency = 3`. -/
theorem C3_validate_attempts_witness :
    ((1 : Nat) ≤ 2 ∧ (1 : Nat) ≤ 3)
    ∧ ((validate_date valBusyW 2).1 = false ∧
       (validate_date valBusyW 2).2.countP Event.isReadIndicator = 2 ∧
       (validate_date valBusyW 2).2.countP Event.isRefreshCall = 1)
    ∧ validate_date valOkW 3 = (true, [.readIndicator 1]) :=
  ⟨⟨by decide, by decide⟩,
   (C3_validate_attempts valBusyW 2 (by decide)).1
     (fun t => ⟨0, rfl, by decide⟩),
   (C3_validate_attempts valOkW 3 (by decide)).2 rfl⟩

/-! ## Lemmas about `capture_screenshots` -/

lemma captureAux_spec (capture : Nat → Except Unit Bool) (genPath : Nat → String) :
    ∀ (configs : List CaptureCfg) (i : Nat),
      (captureAux capture genPath configs i).1 =
        ((List.range' i configs.length).filter
          (fun j => captureOk (capture j))).map genPath
      ∧ (captureAux capture genPath configs i).2 =
        (List.range' i configs.length).map Event.captureTry := by
  intro configs
  induction configs with
  | nil => intro i; simp [captureAux]
  | cons c rest ih =>
    intro i
    obtain ⟨ih1, ih2⟩ := ih (i+1)
    rcases hc : capture i with u | b
    · simp [captureAux, hc, List.range'_succ, List.filter_cons, captureOk, ih1, ih2]
    · cases b
      · simp [captureAux, hc, List.range'_succ, List.filter_cons, captureOk, ih1, ih2]
      · simp [captureAux, hc, List.range'_succ, List.filter_cons, captureOk, ih1, ih2]

/-- Claim C7.  `capture_screenshots` visits every capture config in
configuration order (one `captureTry` per config, failures included), and the
returned artifact list is exactly the paths of the successfully captured
configs, kept in configuration order; with 3 configs where the second fails,
the result is the paths of configs 1 and 3 in that order. -/
theorem C7_capture_order (capture : Nat → Except Unit Bool) (genPath : Nat → String)
    (configs : List CaptureCfg) (c1 c2 c3 : CaptureCfg) :
    ((capture_screenshots capture genPath configs).1 =
      ((List.range configs.length).filter
        (fun j => captureOk (capture j))).map genPath)
    ∧ ((capture_screenshots capture genPath configs).2 =
      (List.range configs.length).map Event.captureTry)
    ∧ (captureOk (capture 0) = true → captureOk (capture 1) = false →
       captureOk (capture 2) = true →
        (capture_screenshots capture genPath [c1, c2, c3]).1 =
          [genPath 0, genPath 2]) := by
  obtain ⟨h1, h2⟩ := captureAux_spec capture genPath configs 0
  refine ⟨by rw [capture_screenshots, h1, List.range_eq_range'],
          by rw [capture_screenshots, h2, List.range_eq_range'], ?_⟩
  intro hc0 hc1 hc2
  obtain ⟨h1', _⟩ := captureAux_spec capture genPath [c1, c2, c3] 0
  rw [capture_screenshots, h1']
  have : List.range' 0 [c1, c2, c3].length = [0, 1, 2] := rfl
  rw [this]
  simp [List.filter_cons, hc0, hc1, hc2]

/-- Witness for C7 at concrete inputs: 3 configs, config 2 fails. -/
theorem C7_capture_order_witness :
    (captureOk ((fun i => if i = 1 then .ok false else .ok true) 0) = true
      ∧ captureOk ((fun i => if i = 1 then .ok false else .ok true) 1) = false
      ∧ captureOk ((fun i => if i = 1 then .ok false else .ok true) 2) = true)
    ∧ (capture_screenshots (fun i => if i = 1 then .ok false else .ok true)
        (fun i => "shot" ++ toString i ++ ".png")
        [⟨"sheet1", "A1:C10", "summary"⟩, ⟨"sheet2", "B2:D8", "detail"⟩,
         ⟨"sheet3", "A1", "trend"⟩]).1 =
      ["shot0.png", "shot2.png"] := by
  constructor
  · exact ⟨by decide, by decide, by decide⟩
  · have := (C7_capture_order (fun i => if i = 1 then .ok false else .ok true)
      (fun i => "shot" ++ toString i ++ ".png")
      [⟨"sheet1", "A1:C10", "summary"⟩, ⟨"sheet2", "B2:D8", "detail"⟩,
       ⟨"sheet3", "A1", "trend"⟩]
      ⟨"sheet1", "A1:C10", "summary"⟩ ⟨"sheet2", "B2:D8", "detail"⟩
      ⟨"sheet3", "A1", "trend"⟩).2.2 (by decide) (by decide) (by decide)
    rw [this]
    decide

/-! ## Timing lemmas about `refresh_data` -/

lemma refreshLoop_elapsed_le {cs : Nat → Except Unit Int} :
    ∀ (fuel k el : Nat), 120 - el ≤ fuel → el ≤ 124 →
      (refreshLoop cs 120 k el).2.1 ≤ 124 := by
  intro fuel
  induction fuel with
  | zero =>
    intro k el hf he
    rw [refreshLoop, dif_neg (by omega)]
    exact he
  | succ n ih =>
    intro k el hf he
    by_cases hel : el < 120
    · rw [refreshLoop, dif_pos hel]
      rcases hc : cs k with u | s
      · exact he
      · by_cases hs : s = 0
        · simp only [hs, if_pos rfl]
          exact he
        · simp only [if_neg hs]
          exact ih (k+1) (el+5) (by omega) (by omega)
    · rw [refreshLoop, dif_neg hel]
      exact he

lemma refreshLoop_noidle {cs : Nat → Except Unit Int}
    (hind : ∀ j, ∃ s, cs j = .ok s ∧ s ≠ 0) :
    ∀ (fuel k el : Nat), 120 - el ≤ fuel → 5 ∣ el → el ≤ 120 →
      (refreshLoop cs 120 k el).1 = false ∧
      (refreshLoop cs 120 k el).2.1 = 120 := by
  intro fuel
  induction fuel with
  | zero =>
    intro k el hf hdvd hle
    rw [refreshLoop, dif_neg (by omega)]
    refine ⟨rfl, ?_⟩
    show el = 120
    omega
  | succ n ih =>
    intro k el hf hdvd hle
    by_cases hel : el < 120
    · obtain ⟨s, hc, hs⟩ := hind k
      rw [refreshLoop, dif_pos hel, hc]
      simp only [if_neg hs]
      exact ih (k+1) (el+5) (by omega) (by omega) (by omega)
    · rw [refreshLoop, dif_neg hel]
      refine ⟨rfl, ?_⟩
      show el = 120
      omega

lemma refreshLoop_idle {cs : Nat → Except Unit Int} :
    ∀ (m k el : Nat), (∀ j, j < m → ∃ s, cs (k+j) = .ok s ∧ s ≠ 0) →
      cs (k+m) = .ok 0 → el + 5 * m < 120 →
      (refreshLoop cs 120 k el).1 = true ∧
      (refreshLoop cs 120 k el).2.1 = el + 5 * m := by
  intro m
  induction m with
  | zero =>
    intro k el hpre hidle hlt
    have hel : el < 120 := by omega
    rw [refreshLoop, dif_pos hel]
    rw [show k + 0 = k by omega] at hidle
    rw [hidle]
    simp
  | succ n ih =>
    intro k el hpre hidle hlt
    have hel : el < 120 := by omega
    obtain ⟨s, hc, hs⟩ := hpre 0 (by omega)
    rw [show k + 0 = k by omega] at hc
    rw [refreshLoop, dif_pos hel, hc]
    simp only [if_neg hs]
    have := ih (k+1) (el+5)
      (fun j hj => by
        have := hpre (j+1) (by omega)
        rwa [show k + (j+1) = k + 1 + j by omega] at this)
      (by rwa [show k + 1 + n = k + (n+1) by omega])
      (by omega)
    refine ⟨this.1, ?_⟩
    rw [this.2]
    omega

lemma refreshLoop_fault {cs : Nat → Except Unit Int} :
    ∀ (m k el : Nat), (∀ j, j < m → ∃ s, cs (k+j) = .ok s ∧ s ≠ 0) →
      cs (k+m) = .error () → el + 5 * m < 120 →
      (refreshLoop cs 120 k el).1 = false := by
  intro m
  induction m with
  | zero =>
    intro k el hpre hbad hlt
    have hel : el < 120 := by omega
    rw [refreshLoop, dif_pos hel]
    rw [show k + 0 = k by omega] at hbad
    rw [hbad]
  | succ n ih =>
    intro k el hpre hbad hlt
    have hel : el < 120 := by omega
    obtain ⟨s, hc, hs⟩ := hpre 0 (by omega)
    rw [show k + 0 = k by omega] at hc
    rw [refreshLoop, dif_pos hel, hc]
    simp only [if_neg hs]
    exact ih (k+1) (el+5)
      (fun j hj => by
        have := hpre (j+1) (by omega)
        rwa [show k + (j+1) = k + 1 + j by omega] at this)
      (by rwa [show k + 1 + n = k + (n+1) by omega])
      (by omega)

/-- Claim C6.  `refresh_data` polls `CalculationState` at a fixed 5-second
interval (every sleep in its trace is 5s) and its total blocking time never
exceeds the 120s timeout plus one poll interval; a never-idle state yields
`false` exactly at the 120s timeout; the first idle poll (poll `m`, preceded
by busy polls) yields `true` after `5 * m` seconds; a fault raised at a poll,
or by `RefreshAll` itself, yields `false` rather than an exception. -/
theorem C6_refresh_timeout (w : RefreshWorld) :
    ((refresh_data w).2.1 ≤ 120 + 5)
    ∧ (∀ s, Event.sleep s ∈ (refresh_data w).2.2 → s = 5)
    ∧ (w.refreshAllOk = true → w.calcUntilOk = true →
       (∀ k, ∃ s, w.calcState k = .ok s ∧ s ≠ 0) →
        (refresh_data w).1 = false ∧ (refresh_data w).2.1 = 120)
    ∧ (∀ m, w.refreshAllOk = true → w.calcUntilOk = true →
        (∀ j, j < m → ∃ s, w.calcState j = .ok s ∧ s ≠ 0) →
        w.calcState m = .ok 0 → 5 * m < 120 →
        (refresh_data w).1 = true ∧ (refresh_data w).2.1 = 5 * m)
    ∧ (∀ m, w.refreshAllOk = true → w.calcUntilOk = true →
        (∀ j, j < m → ∃ s, w.calcState j = .ok s ∧ s ≠ 0) →
        w.calcState m = .error () → 5 * m < 120 →
        (refresh_data w).1 = false)
    ∧ (w.refreshAllOk = false → (refresh_data w).1 = false) := by
  refine ⟨?_, ?_, ?_, ?_, ?_, ?_⟩
  · by_cases h1 : w.refreshAllOk
    · by_cases h2 : w.calcUntilOk
      · simp only [refresh_data, h1, h2, if_true]
        have := @refreshLoop_elapsed_le w.calcState 120 0 0 (by omega) (by omega)
        omega
      · simp [refresh_data, h1, h2]
    · simp [refresh_data, h1]
  · intro s hs
    rcases refresh_data_mem _ hs with h | ⟨j, h⟩ | ⟨j, h⟩ | h <;> simp_all
  · intro h1 h2 hind
    have := refreshLoop_noidle hind 120 0 0 (by omega) (by omega) (by omega)
    simpa [refresh_data, h1, h2] using this
  · intro m h1 h2 hpre hidle hlt
    have := refreshLoop_idle m 0 0 (by simpa using hpre) (by simpa using hidle)
      (by omega)
    simpa [refresh_data, h1, h2] using this
  · intro m h1 h2 hpre hbad hlt
    have := refreshLoop_fault m 0 0 (by simpa using hpre) (by simpa using hbad)
      (by omega)
    simpa [refresh_data, h1, h2] using this
  · intro h1
    simp [refresh_data, h1]

/-- Witness for C6 at concrete worlds: always-busy, immediately-idle, and
immediately-faulting calculation states. -/
theorem C6_refresh_timeout_witness :
    ((refresh_data refreshBusyW).1 = false ∧ (refresh_data refreshBusyW).2.1 = 120)
    ∧ ((refresh_data refreshIdleW).1 = true ∧ (refresh_data refreshIdleW).2.1 = 5 * 0)
    ∧ (refresh_data refreshFaultW).1 = false :=
  ⟨(C6_refresh_timeout refreshBusyW).2.2.1 rfl rfl
     (fun k => ⟨1, rfl, by decide⟩),
   (C6_refresh_timeout refreshIdleW).2.2.2.1 0 rfl rfl
     (fun j hj => absurd hj (by omega)) rfl (by omega),
   (C6_refresh_timeout refreshFaultW).2.2.2.2.1 0 rfl rfl
     (fun j hj => absurd hj (by omega)) rfl (by omega)⟩

/-! ## Lemmas about `_deliver_results` -/

lemma deliverLoop_ok {wh : String} {w : DeliverWorld} :
    ∀ (shots : List String) (i : Nat),
      (∀ j, j < shots.length → w.prepare (i+j) = true) →
      (deliverLoop wh w shots i).1 = false := by
  intro shots
  induction shots with
  | nil => intro i h; simp [deliverLoop]
  | cons p rest ih =>
    intro i h
    have hp : w.prepare i = true := by
      have := h 0 (by simp)
      simpa using this
    simp only [deliverLoop, hp, if_true]
    exact ih (i+1) (fun j hj => by
      have := h (j+1) (by simpa using hj)
      rwa [show i + (j+1) = i + 1 + j by omega] at this)

/-- Counterexample to claim C5 as stated: with one artifact whose file read
raises inside `_prepare_image` (which has no exception handler),
`_deliver_results` propagates the exception to its caller and deletes no
artifact file. -/
theorem C5_deliver_counterexample :
    (deliver_results cfgEx dwBadEx ["shot.png"]).1 = true
    ∧ Event.removeFile "shot.png" ∉ (deliver_results cfgEx dwBadEx ["shot.png"]).2 := by
  decide

/-- Claim C5 as amended: provided every artifact's payload preparation (the
file read and re-encode in `_prepare_image`) returns normally, the delivery
pipeline never raises to its caller — whatever the network endpoints, upload
and attachment filesystem checks do — and an `os.remove` is attempted on
every artifact's local file regardless of per-item send outcomes.  (A raised
`_prepare_image` propagates and skips the cleanup, as the counterexample
shows.) -/
theorem C5_deliver_cleanup (cfg : Config) (w : DeliverWorld) (shots : List String)
    (hprep : ∀ j, j < shots.length → w.prepare j = true) :
    (deliver_results cfg w shots).1 = false
    ∧ ∀ p ∈ shots, Event.removeFile p ∈ (deliver_results cfg w shots).2 := by
  have hloop : (deliverLoop cfg.webhook w shots 0).1 = false :=
    deliverLoop_ok shots 0 (fun j hj => by simpa using hprep j hj)
  constructor
  · simp [deliver_results, hloop]
  · intro p hp
    simp only [deliver_results, hloop, if_false, Bool.false_eq_true]
    have : Event.removeFile p ∈ cleanup shots := by
      simp only [cleanup, List.mem_map]
      exact ⟨p, hp, rfl⟩
    simp [List.mem_append]
    tauto

/-- Witness for C5's amended theorem at a concrete input. -/
theorem C5_deliver_cleanup_witness :
    (∀ j, j < (["a.png", "b.png"] : List String).length → dwOkEx.prepare j = true)
    ∧ (deliver_results cfgEx dwOkEx ["a.png", "b.png"]).1 = false
    ∧ Event.removeFile "a.png" ∈ (deliver_results cfgEx dwOkEx ["a.png", "b.png"]).2 :=
  ⟨fun j hj => rfl,
   (C5_deliver_cleanup cfgEx dwOkEx ["a.png", "b.png"] (fun j hj => rfl)).1,
   (C5_deliver_cleanup cfgEx dwOkEx ["a.png", "b.png"] (fun j hj => rfl)).2
     "a.png" (by simp)⟩

/-! ## Event classification lemmas for `execute` -/

lemma stage_not_deliverSend {e : Event} (he : stageEvent e = true) :
    Event.isDeliverSend e = false := by
  cases e <;> simp_all [stageEvent, Event.isDeliverSend]

lemma stage_not_remove {e : Event} (he : stageEvent e = true) :
    Event.isRemoveFile e = false := by
  cases e <;> simp_all [stageEvent, Event.isRemoveFile]

lemma stage_ne_close {e : Event} (he : stageEvent e = true) (b : Bool) :
    e ≠ .closeWorkbook b := by
  cases e <;> simp_all [stageEvent]

lemma refresh_data_stage {w : RefreshWorld} :
    ∀ e ∈ (refresh_data w).2.2, stageEvent e = true := by
  intro e he
  rcases refresh_data_mem e he with h | ⟨j, h⟩ | ⟨j, h⟩ | h <;> simp [h, stageEvent]

lemma sendAux_stage_text {wh c : String} {ok : Nat → Bool} {fuel attempt : Nat}
    {e : Event} (he : e ∈ sendAux wh "text" c ok attempt fuel) :
    stageEvent e = true := by
  rcases sendAux_mem he with ⟨a, b, h⟩ | ⟨s, h⟩ <;> simp [h, stageEvent]

lemma validateAux_stage {w : ValidateWorld} {N : Nat} :
    ∀ (fuel attempt : Nat), ∀ e ∈ (validateAux w N attempt fuel).2,
      stageEvent e = true := by
  intro fuel
  induction fuel with
  | zero => intro attempt e he; simp [validateAux] at he
  | succ n ih =>
    intro attempt e he
    rcases hv : w.indicator attempt with u | v
    · simp only [validateAux, hv, List.mem_cons] at he
      rcases he with he | he
      · simp [he, stageEvent]
      · exact ih (attempt+1) e he
    · simp only [validateAux, hv] at he
      by_cases h1 : v = 1
      · rw [if_pos h1] at he
        simp at he
        simp [he, stageEvent]
      · rw [if_neg h1] at he
        by_cases hlt : attempt < N
        · rw [if_pos hlt] at he
          simp only [List.mem_cons, List.mem_append] at he
          rcases he with he | he | he | he
          · simp [he, stageEvent]
          · simp [he, stageEvent]
          · exact refresh_data_stage e he
          · exact ih (attempt+1) e he
        · rw [if_neg hlt] at he
          simp only [List.mem_cons] at he
          rcases he with he | he
          · simp [he, stageEvent]
          · exact ih (attempt+1) e he

lemma captureAux_stage {capture : Nat → Except Unit Bool} {genPath : Nat → String}
    {configs : List CaptureCfg} {i : Nat} :
    ∀ e ∈ (captureAux capture genPath configs i).2, stageEvent e = true := by
  intro e he
  rw [(captureAux_spec capture genPath configs i).2] at he
  rcases List.mem_map.1 he with ⟨j, _, h⟩
  simp [← h, stageEvent]

lemma executeBody_stage (cfg : Config) (w : World) :
    ∀ e ∈ (executeBody cfg w).2, stageEvent e = true := by
  intro e he
  by_cases hrf : (refresh_data w.refreshW).1
  · simp only [executeBody, hrf, if_true] at he
    by_cases hdce : cfg.dataCheckEnable
    · rw [if_pos hdce] at he
      rcases hdc : cfg.dataCheck with _ | dc
      · rw [hdc] at he
        exact refresh_data_stage e he
      · rw [hdc] at he
        dsimp only at he
        by_cases hval : (validate_date w.valW dc.checkFrequency).1
        · rw [if_pos hval] at he
          rcases List.mem_append.1 he with he | he
          · exact refresh_data_stage e he
          · rcases List.mem_append.1 he with he | he
            · exact validateAux_stage dc.checkFrequency 1 e he
            · exact captureAux_stage e he
        · rw [if_neg hval] at he
          rcases List.mem_append.1 he with he | he
          · exact refresh_data_stage e he
          · rcases List.mem_append.1 he with he | he
            · exact validateAux_stage dc.checkFrequency 1 e he
            · exact sendAux_stage_text he
    · rw [if_neg hdce] at he
      rcases List.mem_append.1 he with he | he
      · exact refresh_data_stage e he
      · exact captureAux_stage e he
  · simp only [executeBody, hrf, if_false, Bool.false_eq_true] at he
    rcases hdc : cfg.dataCheck with _ | dc
    · rw [hdc] at he
      exact refresh_data_stage e he
    · rw [hdc] at he
      dsimp only at he
      rcases List.mem_append.1 he with he | he
      · exact refresh_data_stage e he
      · exact sendAux_stage_text he

lemma sendAux_deliver {wh t c : String} {ok : Nat → Bool} {fuel attempt : Nat}
    {e : Event} (he : e ∈ sendAux wh t c ok attempt fuel) :
    deliverEvent e = true := by
  rcases sendAux_mem he with ⟨a, b, h⟩ | ⟨s, h⟩ <;> simp [h, deliverEvent]

lemma deliverLoop_mem {wh : String} {w : DeliverWorld} :
    ∀ (shots : List String) (i : Nat), ∀ e ∈ (deliverLoop wh w shots i).2,
      deliverEvent e = true := by
  intro shots
  induction shots with
  | nil => intro i e he; simp [deliverLoop] at he
  | cons p rest ih =>
    intro i e he
    by_cases hp : w.prepare i
    · simp only [deliverLoop, hp, if_true, List.mem_cons, List.mem_append] at he
      rcases he with he | he | he
      · simp [he, deliverEvent]
      · exact sendAux_deliver he
      · exact ih (i+1) e he
    · simp only [deliverLoop, hp, if_false, Bool.false_eq_true, List.mem_cons] at he
      simp at he
      simp [he, deliverEvent]

lemma send_attachment_mem {cfg : Config} {w : DeliverWorld} :
    ∀ e ∈ send_attachment cfg w, deliverEvent e = true := by
  intro e he
  rcases hfp : cfg.filePath with _ | p
  · simp [send_attachment, hfp] at he
  · simp only [send_attachment, hfp] at he
    by_cases h1 : w.fileExists
    · rw [if_pos h1] at he
      by_cases h2 : w.openOk
      · rw [if_pos h2] at he
        rcases hu : w.uploadResult with _ | mid
        · rw [hu] at he
          simp at he
          simp [he, deliverEvent]
        · rw [hu] at he
          rcases List.mem_cons.1 he with he | he
          · simp [he, deliverEvent]
          · exact sendAux_deliver he
      · rw [if_neg h2] at he
        simp at he
    · rw [if_neg h1] at he
      simp at he

lemma deliver_results_mem {cfg : Config} {w : DeliverWorld} {shots : List String} :
    ∀ e ∈ (deliver_results cfg w shots).2, deliverEvent e = true := by
  intro e he
  by_cases hl : (deliverLoop cfg.webhook w shots 0).1
  · simp only [deliver_results, hl, if_true] at he
    exact deliverLoop_mem shots 0 e he
  · simp only [deliver_results, hl, if_false, Bool.false_eq_true,
      List.mem_append] at he
    rcases he with he | he | he
    · exact deliverLoop_mem shots 0 e he
    · by_cases hsf : cfg.sendFileEnable
      · rw [if_pos hsf] at he
        exact send_attachment_mem e he
      · rw [if_neg hsf] at he
        simp at he
    · rcases List.mem_map.1 he with ⟨q, _, h⟩
      simp [← h, deliverEvent]

lemma safe_shutdown_mem {a b c : Bool} :
    ∀ e ∈ safe_shutdown a b c,
      e = .safeShutdown ∨ e = .closeWorkbook true ∨ e = .quitExcel := by
  intro e he
  cases a <;> cases b <;> cases c <;> simp [safe_shutdown] at he <;> tauto

lemma safe_shutdown_has_marker {a b c : Bool} :
    Event.safeShutdown ∈ safe_shutdown a b c := by
  simp [safe_shutdown]

lemma safe_shutdown_has_close {b c : Bool} :
    Event.closeWorkbook true ∈ safe_shutdown true b c := by
  cases c <;> simp [safe_shutdown]

/-- On a firing whose session opened successfully, `execute`'s trace is the
open event, then the `with`-block body, then the `__exit__` shutdown, then a
tail made only of delivery events and the boundary logs. -/
lemma execute_ok_decomp (cfg : Config) (w : World) (d : Bool)
    (h : w.openOut = .ok) :
    ∃ tail,
      execute cfg w d =
        .openSession true true :: ((executeBody cfg w).2 ++
          (safe_shutdown true true w.closeOk ++ tail))
      ∧ ∀ e ∈ tail, deliverEvent e = true ∨ e = .logError ∨ e = .logElapsed := by
  rcases hbody : executeBody cfg w with ⟨ex, btr⟩
  cases ex with
  | normal shots =>
    rcases hd : deliver_results cfg w.deliver shots with ⟨raised, dtr⟩
    have hdmem : ∀ e ∈ dtr, deliverEvent e = true := by
      intro e he
      have := @deliver_results_mem cfg w.deliver shots e
      rw [hd] at this
      exact this he
    cases raised
    · refine ⟨dtr ++ [.logElapsed], ?_, ?_⟩
      · simp [execute, enterSession, ExcelProcessor.init, h, hbody, hd,
          List.append_assoc]
      · intro e he
        rcases List.mem_append.1 he with he | he
        · exact .inl (hdmem e he)
        · simp at he
          exact .inr (.inr he)
    · refine ⟨dtr ++ [.logError, .logElapsed], ?_, ?_⟩
      · simp [execute, enterSession, ExcelProcessor.init, h, hbody, hd,
          List.append_assoc]
      · intro e he
        rcases List.mem_append.1 he with he | he
        · exact .inl (hdmem e he)
        · simp at he
          rcases he with he | he
          · exact .inr (.inl he)
          · exact .inr (.inr he)
  | earlyReturn =>
    refine ⟨[.logElapsed], ?_, ?_⟩
    · simp [execute, enterSession, ExcelProcessor.init, h, hbody,
        List.append_assoc]
    · intro e he
      simp at he
      exact .inr (.inr he)
  | raised =>
    refine ⟨[.logError, .logElapsed], ?_, ?_⟩
    · simp [execute, enterSession, ExcelProcessor.init, h, hbody,
        List.append_assoc]
    · intro e he
      simp at he
      rcases he with he | he
      · exact .inr (.inl he)
      · exact .inr (.inr he)

/-- Claim C1.  `_safe_shutdown` runs on every exit path of `execute` —
successful completion, the early returns, and faults, including a failed
`__enter__` (which calls it itself before re-raising) — and when a session
was opened, the `workbook.Close` call precedes every send of the Delivery
Pipeline (image and attachment-file posts). -/
theorem C1_session_release (cfg : Config) (w : World) (d : Bool) :
    Event.safeShutdown ∈ execute cfg w d
    ∧ (w.openOut = .ok →
        ∃ pre post, execute cfg w d = pre ++ Event.closeWorkbook true :: post
          ∧ ∀ e ∈ pre, Event.isDeliverSend e = false) := by
  constructor
  · rcases ho : w.openOut with _ | _ | _
    · simp [execute, enterSession, ExcelProcessor.init, ho, safe_shutdown]
    · simp [execute, enterSession, ExcelProcessor.init, ho, safe_shutdown]
    · obtain ⟨tail, heq, -⟩ := execute_ok_decomp cfg w d ho
      rw [heq]
      simp [safe_shutdown]
  · intro ho
    obtain ⟨tail, heq, -⟩ := execute_ok_decomp cfg w d ho
    have hpre : ∀ e ∈ Event.openSession true true ::
        ((executeBody cfg w).2 ++ [Event.safeShutdown]),
        Event.isDeliverSend e = false := by
      intro e he
      rcases List.mem_cons.1 he with he | he
      · simp [he, Event.isDeliverSend]
      · rcases List.mem_append.1 he with he | he
        · exact stage_not_deliverSend (executeBody_stage cfg w e he)
        · simp at he
          simp [he, Event.isDeliverSend]
    cases hc : w.closeOk
    · rw [hc] at heq
      refine ⟨Event.openSession true true ::
        ((executeBody cfg w).2 ++ [Event.safeShutdown]), tail, ?_, hpre⟩
      rw [heq]
      simp [safe_shutdown, List.append_assoc]
    · rw [hc] at heq
      refine ⟨Event.openSession true true ::
        ((executeBody cfg w).2 ++ [Event.safeShutdown]),
        Event.quitExcel :: tail, ?_, hpre⟩
      rw [heq]
      simp [safe_shutdown, List.append_assoc]

/-- Witness for C1: the session-closing decomposition at a fully successful
concrete firing. -/
theorem C1_session_release_witness :
    worldEx.openOut = .ok
    ∧ ∃ pre post, execute cfgEx worldEx false =
        pre ++ Event.closeWorkbook true :: post
        ∧ ∀ e ∈ pre, Event.isDeliverSend e = false :=
  ⟨rfl, (C1_session_release cfgEx worldEx false).2 rfl⟩

/-- Claim C2.  `execute` always returns normally — every trace ends with the
`finally` elapsed-time log — and a fault such as a failed Excel startup is
caught at the task boundary and logged (`logError`) rather than propagated. -/
theorem C2_no_propagation (cfg : Config) (w : World) (d : Bool) :
    (execute cfg w d).getLast? = some Event.logElapsed
    ∧ (w.openOut = .dispatchFail → Event.logError ∈ execute cfg w d) := by
  constructor
  · simp only [execute]
    split
    · rw [List.getLast?_append_cons]; rfl
    · rw [List.getLast?_append_cons]; rfl
  · intro ho
    simp [execute, enterSession, ExcelProcessor.init, ho, safe_shutdown]

/-- Witness for C2 at a concrete failing environment (Excel Dispatch raises). -/
theorem C2_no_propagation_witness :
    ({ worldEx with openOut := .dispatchFail } : World).openOut = .dispatchFail
    ∧ Event.logError ∈ execute cfgEx { worldEx with openOut := .dispatchFail } false :=
  ⟨rfl, (C2_no_propagation cfgEx { worldEx with openOut := .dispatchFail } false).2 rfl⟩

/-- Claim C8.  When refresh reports failure (timeout or fault), the firing
sends the fixed warning text `数据刷新失败，请检查网络！` to the configured
`data_check.warning_webhook` and stops: no capture config is processed, the
Delivery Pipeline performs no send, and no artifact file is removed. -/
theorem C8_refresh_fail_warning (cfg : Config) (w : World) (d : Bool)
    (dc : DataCheck) (hdc : cfg.dataCheck = some dc) (ho : w.openOut = .ok)
    (hrf : (refresh_data w.refreshW).1 = false) :
    Event.sendAttempt dc.warningWebhook "text" "数据刷新失败，请检查网络！" 1
        (w.warnSend 1) ∈ execute cfg w d
    ∧ ∀ e ∈ execute cfg w d,
        Event.isCaptureTry e = false ∧ Event.isDeliverSend e = false
          ∧ Event.isRemoveFile e = false := by
  have hbody : executeBody cfg w = (.earlyReturn,
      (refresh_data w.refreshW).2.2 ++
        send_wechat dc.warningWebhook "text" "数据刷新失败，请检查网络！"
          w.warnSend 3) := by
    simp [executeBody, hrf, hdc]
  have heq : execute cfg w d = Event.openSession true true ::
      (((refresh_data w.refreshW).2.2 ++
        send_wechat dc.warningWebhook "text" "数据刷新失败，请检查网络！"
          w.warnSend 3) ++
       (safe_shutdown true true w.closeOk ++ [Event.logElapsed])) := by
    simp [execute, enterSession, ExcelProcessor.init, ho, hbody, List.append_assoc]
  constructor
  · rw [heq]
    have hfirst : Event.sendAttempt dc.warningWebhook "text"
        "数据刷新失败，请检查网络！" 1 (w.warnSend 1) ∈
        send_wechat dc.warningWebhook "text" "数据刷新失败，请检查网络！"
          w.warnSend 3 := send_wechat_first
    simp only [List.mem_cons, List.mem_append]
    tauto
  · intro e he
    rw [heq] at he
    simp only [List.mem_cons, List.mem_append] at he
    rcases he with he | (he | he) | (he | (he | he))
    · simp [he, Event.isCaptureTry, Event.isDeliverSend, Event.isRemoveFile]
    · rcases refresh_data_mem e he with h | ⟨j, h⟩ | ⟨j, h⟩ | h <;>
        simp [h, Event.isCaptureTry, Event.isDeliverSend, Event.isRemoveFile]
    · rcases sendAux_mem he with ⟨a, b, h⟩ | ⟨s, h⟩ <;>
        simp [h, Event.isCaptureTry, Event.isDeliverSend, Event.isRemoveFile]
    · rcases safe_shutdown_mem e he with h | h | h <;>
        simp [h, Event.isCaptureTry, Event.isDeliverSend, Event.isRemoveFile]
    · simp [he, Event.isCaptureTry, Event.isDeliverSend, Event.isRemoveFile]
    · exact absurd he (by simp)

/-- Witness for C8 at a concrete firing whose refresh polls always report
busy until the 120s timeout. -/
theorem C8_refresh_fail_warning_witness :
    cfgEx.dataCheck = some dcEx
    ∧ ({ worldEx with refreshW := refreshBusyW } : World).openOut = .ok
    ∧ (refresh_data ({ worldEx with refreshW := refreshBusyW } : World).refreshW).1
        = false
    ∧ Event.sendAttempt dcEx.warningWebhook "text" "数据刷新失败，请检查网络！" 1
        (({ worldEx with refreshW := refreshBusyW } : World).warnSend 1)
        ∈ execute cfgEx { worldEx with refreshW := refreshBusyW } false := by
  have hloop := (@refreshLoop_noidle (fun _ => Except.ok 1)
      (fun j => ⟨1, rfl, by decide⟩) 120 0 0 (by omega) (by omega) (by omega)).1
  have hrf : (refresh_data refreshBusyW).1 = false := by
    simpa [refresh_data, refreshBusyW] using hloop
  exact ⟨rfl, rfl, hrf,
    (C8_refresh_fail_warning cfgEx { worldEx with refreshW := refreshBusyW }
      false dcEx rfl rfl hrf).1⟩

/-- Claim C9 (code bug in the source).  `ExcelProcessor.__init__` is supposed
to propagate its `visible` argument (set from `debug_mode`) to the session,
but line 47 executes `self.visible = True`, so with `debug_mode=False` the
stored visibility — and hence `Excel.Application.Visible` — is still `true`;
consequently no observable behaviour of a firing differs between the two
debug modes.  This theorem evaluates the embedded constructor at the failing
input `visible=False`. -/
theorem C9_visible_ignored :
    (ExcelProcessor.init "C:\\reports\\daily.xlsx" false).visible = true
    ∧ ∀ (cfg : Config) (w : World), execute cfg w false = execute cfg w true :=
  ⟨rfl, fun cfg w => rfl⟩

/-- Claim C10.  Every workbook close issued during a firing passes
`SaveChanges=True` (no closing with `SaveChanges=False` ever occurs), and on
any firing that opened its session a `Close(SaveChanges=True)` is issued on
release — so session teardown writes pending changes back to the source file
and is not read-only. -/
theorem C10_close_saves (cfg : Config) (w : World) (d : Bool) :
    Event.closeWorkbook false ∉ execute cfg w d
    ∧ (w.openOut = .ok → Event.closeWorkbook true ∈ execute cfg w d) := by
  constructor
  · intro hmem
    rcases ho : w.openOut with _ | _ | _
    · simp [execute, enterSession, ExcelProcessor.init, ho, safe_shutdown] at hmem
    · simp [execute, enterSession, ExcelProcessor.init, ho, safe_shutdown] at hmem
    · obtain ⟨tail, heq, htail⟩ := execute_ok_decomp cfg w d ho
      rw [heq] at hmem
      simp only [List.mem_cons, List.mem_append] at hmem
      rcases hmem with h | h | h | h
      · simp at h
      · have := executeBody_stage cfg w _ h
        simp [stageEvent] at this
      · rcases safe_shutdown_mem _ h with h' | h' | h' <;> simp at h'
      · rcases htail _ h with h' | h' | h' <;> simp [deliverEvent] at h'
  · intro ho
    obtain ⟨tail, heq, -⟩ := execute_ok_decomp cfg w d ho
    rw [heq]
    have hclose := @safe_shutdown_has_close true w.closeOk
    simp only [List.mem_cons, List.mem_append]
    tauto

/-- Witness for C10 at a concrete successful firing. -/
theorem C10_close_saves_witness :
    worldEx.openOut = .ok
    ∧ Event.closeWorkbook true ∈ execute cfgEx worldEx false :=
  ⟨rfl, (C10_close_saves cfgEx worldEx false).2 rfl⟩

end ExcelBot
